import Mathlib

/-!
Verification of the choirbackend subscription/payment/OTP logic.

The definitions below are a shallow embedding of the Python source:
  - src/subscriptions/models.py   (Subscription, UserSubscription, PaymentTransaction)
  - src/subscriptions/services/hubtel_service.py  (HubtelPaymentService)
  - src/subscriptions/services/subscription_service.py
  - src/subscriptions/views/payment_views.py  (PaymentViewSet)
  - src/authentication/models.py  (User, OTP)
  - src/authentication/services.py (OTPService)

Conventions:
  - Python Decimal is modeled as Rat (the Decimal additions, subtractions and
    comparisons performed here are exact, so Rat is a faithful carrier).
  - timezone.now() instants are modeled as Int (seconds); timedelta(minutes=m)
    is modeled by the function minutes.
  - Django model rows become Lean structures; a save() becomes returning the
    updated record; querysets over a table become predicates or explicit lists.
  - JSON payloads (Hubtel callback bodies) are modeled by the mutual
    inductives Json / JsonList / JsonObj; JsonObj keeps key order, as Python
    dicts do.
-/

namespace Choir

/-- Minutes-to-seconds conversion, modeling timedelta(minutes = m) on an
Int timeline measured in seconds. -/
def minutes (m : Int) : Int := 60 * m

mutual
/-- JSON values, modeling the dict/list/str/number payloads that Django
passes to HubtelPaymentService.handle_callback. -/
inductive Json where
  | null : Json
  | bool (b : Bool) : Json
  | num (q : Rat) : Json
  | str (s : String) : Json
  | arr (elems : JsonList) : Json
  | obj (entries : JsonObj) : Json
deriving DecidableEq

/-- A list of JSON values (the elements of a JSON array). -/
inductive JsonList where
  | nil : JsonList
  | cons (hd : Json) (tl : JsonList) : JsonList
deriving DecidableEq

/-- The entries of a JSON object, in insertion order as in a Python dict. -/
inductive JsonObj where
  | nil : JsonObj
  | cons (k : String) (v : Json) (tl : JsonObj) : JsonObj
deriving DecidableEq
end

namespace JsonObj

/-- Look up the value at the first entry with the given key. -/
def find? (k : String) : JsonObj → Option Json
  | .nil => none
  | .cons k2 v tl => if k2 == k then some v else find? k tl

/-- Number of entries. -/
def length : JsonObj → Nat
  | .nil => 0
  | .cons _ _ tl => length tl + 1

end JsonObj

namespace Json

/-- d.get(k, default) on a Python dict: the value at the first matching key,
or the default. The code paths in scope only call .get on dict values. -/
def getD (j : Json) (k : String) (d : Json) : Json :=
  match j with
  | .obj entries =>
    match entries.find? k with
    | some v => v
    | none => d
  | _ => d

/-- Coerce a JSON value that the code stores into a CharField/TextField to a
String; the webhook serializer validates these fields as strings, so the
non-string fallback is not reached in scope. -/
def strOr (j : Json) (d : String) : String :=
  match j with
  | .str s => s
  | _ => d

/-- Coerce a JSON number to Rat, modeling Decimal(str(x)) on the numeric
fields (charges, amountAfterCharges) of a Hubtel status response. -/
def numOr (j : Json) (d : Rat) : Rat :=
  match j with
  | .num q => q
  | _ => d

/-- Python truthiness of a JSON value (used by "if not client_reference"
and "if transaction.callback_data"). -/
def truthy : Json → Bool
  | .null => false
  | .bool b => b
  | .num q => q != 0
  | .str s => !(s == "")
  | .arr elems => !(elems == .nil)
  | .obj entries => !(entries == .nil)

/-- Code-point lexicographic comparison of char lists: the string order by
which json.dumps(..., sort_keys=True) sorts object keys (Python compares
strings by code point). -/
def lexLe : List Char → List Char → Bool
  | [], _ => true
  | _ :: _, [] => false
  | c :: cs, d :: ds =>
    if c.toNat < d.toNat then true
    else if d.toNat < c.toNat then false
    else lexLe cs ds

/-- Key order for sorted JSON objects. -/
def keyLe (a b : String) : Bool := lexLe a.data b.data

/-- Insert one key/value pair into a key-sorted JsonObj. -/
def insertObj (k : String) (v : Json) : JsonObj → JsonObj
  | .nil => .cons k v .nil
  | .cons k2 v2 tl =>
    if keyLe k k2 then .cons k v (.cons k2 v2 tl) else .cons k2 v2 (insertObj k v tl)

mutual
/-- Key-sorted canonical form of a JSON value. Two values have the same
json.dumps(x, sort_keys=True) serialization (hence the same md5 digest of
it, reading md5 as collision-free) exactly when their canonical forms are
equal, so the callback hash computed by is_duplicate_callback is modeled
by canon. -/
def canon : Json → Json
  | .null => .null
  | .bool b => .bool b
  | .num q => .num q
  | .str s => .str s
  | .arr elems => .arr (canonList elems)
  | .obj entries => .obj (canonObj entries)

/-- canon mapped over the elements of a JSON array. -/
def canonList : JsonList → JsonList
  | .nil => .nil
  | .cons x xs => .cons (canon x) (canonList xs)

/-- canon mapped over the values of a JSON object, sorting entries by key. -/
def canonObj : JsonObj → JsonObj
  | .nil => .nil
  | .cons k v tl => insertObj k (canon v) (canonObj tl)
end

theorem length_insertObj (k : String) (v : Json) :
    (l : JsonObj) → (insertObj k v l).length = l.length + 1
  | .nil => rfl
  | .cons k2 v2 tl => by
    simp only [insertObj]
    split
    · rfl
    · simp [JsonObj.length, length_insertObj k v tl]

theorem length_canonObj : (l : JsonObj) → (canonObj l).length = l.length
  | .nil => rfl
  | .cons k v tl => by
    simp [canonObj, length_insertObj, length_canonObj tl, JsonObj.length]

end Json

/-! ## Data model (src/subscriptions/models.py) -/

/-- Subscription row (class Subscription). Organizations and users are
identified by their ids (Nat). Dates are Int days on the date line. -/
structure Subscription where
  organization : Nat
  name : String
  amount : Rat
  start_date : Int
  end_date : Int
  assignees_category : String
  is_active : Bool
deriving DecidableEq

/-- UserSubscription row. The subscription foreign key is inlined; the user
foreign key is the user id. -/
structure UserSubscription where
  user : Nat
  subscription : Subscription
  status : String
  amount_paid : Rat
  payment_date : Option Int
  payment_reference : String
deriving DecidableEq

/-- PaymentTransaction row (the fields the verified code reads or writes).
user and organization are the denormalized ids. -/
structure PaymentTransaction where
  user : Nat
  organization : Nat
  checkout_id : String
  checkout_url : String
  client_reference : String
  hubtel_transaction_id : String
  network_transaction_id : String
  sales_invoice_id : String
  amount : Rat
  status : String
  description : String
  payment_channel : String
  payment_type : String
  customer_mobile_number : String
  charges : Rat
  amount_after_charges : Rat
  created_at : Int
  confirmed_at : Option Int
  expires_at : Option Int
  callback_received_at : Option Int
  callback_data : Option Json
  error_message : String
deriving DecidableEq

namespace UserSubscription

/-- UserSubscription.process_payment (models.py lines 222-243): add the paid
amount, stamp the payment, and update the status from the cumulative total.
The final save() is modeled by returning the updated row. -/
def process_payment (self : UserSubscription) (amount_paid : Rat)
    (payment_reference : String) (now : Int) : UserSubscription :=
  let new_paid := self.amount_paid + amount_paid
  let subscription_amount := self.subscription.amount
  let new_status :=
    if new_paid ≥ subscription_amount then "fully_paid"
    else if new_paid > 0 then "partially_paid"
    else self.status
  { self with
    amount_paid := new_paid
    payment_date := some now
    payment_reference := payment_reference
    status := new_status }

/-- UserSubscription.get_outstanding_amount (models.py lines 245-249). -/
def get_outstanding_amount (self : UserSubscription) : Rat :=
  max 0 (self.subscription.amount - self.amount_paid)

/-- UserSubscription.can_make_payment (models.py lines 255-278).
payment_transactions is the reverse foreign-key queryset of this row.
Note the variable named five_minutes_ago in the source is now minus
timedelta(minutes=1). -/
def can_make_payment (self : UserSubscription)
    (payment_transactions : List PaymentTransaction) (now : Int) : Bool × String :=
  if self.status == "fully_paid" then
    (false, "Subscription is already fully paid")
  else if self.status == "refunded" then
    (false, "Subscription has been refunded")
  else
    let five_minutes_ago := now - minutes 1
    let pending_payment := payment_transactions.any fun t =>
      (t.status == "initiated" || t.status == "pending") && five_minutes_ago ≤ t.created_at
    if pending_payment then
      (false, "A payment is already in progress. Please wait 5 minutes before trying again.")
    else
      (true, "Can make payment")

end UserSubscription

namespace PaymentTransaction

/-- PaymentTransaction.mark_as_success (models.py lines 488-508): set the
transaction to success, record timestamps and callback details, then credit
the payment to the user subscription via process_payment. Returns the
updated (transaction, user_subscription) pair. -/
def mark_as_success (self : PaymentTransaction) (user_subscription : UserSubscription)
    (callback_data : Option Json) (now : Int) : PaymentTransaction × UserSubscription :=
  let t := { self with
    status := "success"
    confirmed_at := some now
    callback_received_at := some now }
  let t :=
    match callback_data with
    | some cb =>
      let payment_details := (cb.getD "Data" (.obj .nil)).getD "PaymentDetails" (.obj .nil)
      { t with
        callback_data := some cb
        payment_channel := (payment_details.getD "Channel" (.str "")).strOr ""
        payment_type := (payment_details.getD "PaymentType" (.str "")).strOr ""
        customer_mobile_number := (payment_details.getD "MobileMoneyNumber" (.str "")).strOr ""
        sales_invoice_id := ((cb.getD "Data" (.obj .nil)).getD "SalesInvoiceId" (.str "")).strOr "" }
    | none => t
  (t, user_subscription.process_payment t.amount t.client_reference now)

/-- PaymentTransaction.mark_as_failed (models.py lines 510-519). -/
def mark_as_failed (self : PaymentTransaction) (error_message : String)
    (callback_data : Option Json) (now : Int) : PaymentTransaction :=
  { self with
    status := "failed"
    error_message := error_message
    callback_received_at := some now
    callback_data :=
      match callback_data with
      | some cb => some cb
      | none => self.callback_data }

end PaymentTransaction

/-! ## Hubtel payment service (src/subscriptions/services/hubtel_service.py) -/

namespace HubtelPaymentService

/-- The Data.ClientReference field of a callback payload
(hubtel_service.py line 170). -/
def callback_client_reference (callback_data : Json) : Json :=
  (callback_data.getD "Data" (.obj .nil)).getD "ClientReference" .null

/-- HubtelPaymentService.is_duplicate_callback (hubtel_service.py lines
300-319): for a transaction in a final state whose stored callback_data is
truthy, compare the md5 of the key-sorted json.dumps of the incoming and
stored payloads. The digest comparison is modeled by comparing key-sorted
canonical forms (equal dumps strings exactly correspond to equal canonical
forms, reading md5 as collision-free). -/
def is_duplicate_callback (transaction : PaymentTransaction)
    (callback_data : Json) : Bool :=
  if transaction.status == "success" || transaction.status == "failed"
      || transaction.status == "refunded" then
    match transaction.callback_data with
    | some stored =>
      if stored.truthy then callback_data.canon == stored.canon else false
    | none => false
  else
    false

/-- The success test of handle_callback (hubtel_service.py line 191):
ResponseCode is the string 0000 and both Status and Data.Status are the
string Success. -/
def callback_success (callback_data : Json) : Bool :=
  callback_data.getD "ResponseCode" .null == .str "0000"
    && callback_data.getD "Status" .null == .str "Success"
    && (callback_data.getD "Data" (.obj .nil)).getD "Status" .null == .str "Success"

/-- The error message stored by the failure branch of handle_callback
(hubtel_service.py line 198): Data.Description, defaulting to the string
Payment failed. -/
def callback_error_message (callback_data : Json) : String :=
  ((callback_data.getD "Data" (.obj .nil)).getD "Description"
    (.str "Payment failed")).strOr "Payment failed"

/-- HubtelPaymentService.handle_callback (hubtel_service.py lines 182-203),
from the point where the transaction named by Data.ClientReference has been
found, together with its user subscription. The earlier guards (lines
170-180: missing ClientReference, unknown transaction) return before any
state change; claims about found transactions carry the lookup as a
hypothesis. Returns (success, message, transaction, user_subscription). -/
def handle_callback (transaction : PaymentTransaction)
    (user_subscription : UserSubscription) (callback_data : Json) (now : Int) :
    Bool × String × PaymentTransaction × UserSubscription :=
  if is_duplicate_callback transaction callback_data then
    (true, "Duplicate callback (already processed)", transaction, user_subscription)
  else if callback_success callback_data then
    let (t, s) := transaction.mark_as_success user_subscription (some callback_data) now
    (true, "Payment processed successfully", t, s)
  else
    let error_message := callback_error_message callback_data
    (false, error_message,
      transaction.mark_as_failed error_message (some callback_data) now,
      user_subscription)

/-- HubtelPaymentService.check_payment_status (hubtel_service.py lines
205-266). The Hubtel HTTP response body is passed in as response_data; the
request-exception path re-raises without touching the transaction and is
therefore the identity here. -/
def check_payment_status (transaction : PaymentTransaction)
    (user_subscription : UserSubscription) (response_data : Json) (now : Int) :
    PaymentTransaction × UserSubscription :=
  if response_data.getD "responseCode" .null == .str "0000" then
    let data := response_data.getD "data" (.obj .nil)
    let st := data.getD "status" .null
    if st == .str "Paid" && !(transaction.status == "success") then
      let t := { transaction with
        hubtel_transaction_id := (data.getD "transactionId" (.str "")).strOr ""
        network_transaction_id := (data.getD "externalTransactionId" (.str "")).strOr ""
        payment_type := (data.getD "paymentMethod" (.str "")).strOr ""
        charges := (data.getD "charges" (.num 0)).numOr 0
        amount_after_charges := (data.getD "amountAfterCharges" (.num 0)).numOr 0 }
      let callback_data := Json.obj
        (.cons "Data" data (.cons "ResponseCode" (.str "0000")
          (.cons "Status" (.str "Success") .nil)))
      t.mark_as_success user_subscription (some callback_data) now
    else if st == .str "Unpaid" then
      ({ transaction with status := "pending" }, user_subscription)
    else if st == .str "Refunded" then
      ({ transaction with status := "refunded" }, user_subscription)
    else
      (transaction, user_subscription)
  else
    (transaction, user_subscription)

/-- HubtelPaymentService.initiate_payment (hubtel_service.py lines 37-90),
up to the creation of the PaymentTransaction row. Every ValueError is
raised before PaymentTransaction.objects.create, so the error cases create
no record; the success case creates exactly the returned record. The
Hubtel HTTP call that follows creation is outside this function. The
freshly generated client_reference and the PAYMENT_EXPIRY_MINUTES config
value are parameters. -/
def initiate_payment (user_subscription : UserSubscription)
    (payment_transactions : List PaymentTransaction) (amount? : Option Rat)
    (client_reference : String) (expiry_minutes : Int) (now : Int) :
    Except String PaymentTransaction :=
  let (can_pay, message) := user_subscription.can_make_payment payment_transactions now
  if !can_pay then
    .error message
  else
    let amount := amount?.getD user_subscription.get_outstanding_amount
    if amount ≤ 0 then
      .error "Payment amount must be greater than zero"
    else
      let outstanding := user_subscription.get_outstanding_amount
      if amount > outstanding then
        .error "Payment amount cannot exceed outstanding amount"
      else
        .ok {
          user := user_subscription.user
          organization := user_subscription.subscription.organization
          checkout_id := ""
          checkout_url := ""
          client_reference := client_reference
          hubtel_transaction_id := ""
          network_transaction_id := ""
          sales_invoice_id := ""
          amount := amount
          status := "initiated"
          description := user_subscription.subscription.name ++ " - Payment"
          payment_channel := ""
          payment_type := ""
          customer_mobile_number := ""
          charges := 0
          amount_after_charges := 0
          created_at := now
          confirmed_at := none
          expires_at := some (now + minutes expiry_minutes)
          callback_received_at := none
          callback_data := none
          error_message := "" }

end HubtelPaymentService

/-! ## Users and roles (src/authentication/models.py) -/

/-- User row (the fields the verified code reads). -/
structure User where
  id : Nat
  organization : Option Nat
  is_active : Bool
  is_superuser : Bool
  role : String
deriving DecidableEq

namespace User

/-- User.is_executive (authentication/models.py lines 194-195). Note that
this list includes part_leader. -/
def is_executive (self : User) : Bool :=
  ["super_admin", "finance_admin", "attendance_officer", "treasurer", "admin",
    "part_leader"].contains self.role

/-- User.is_finance_admin (authentication/models.py lines 179-180). -/
def is_finance_admin (self : User) : Bool :=
  self.role == "finance_admin" || self.is_superuser

/-- User.is_super_admin (authentication/models.py lines 176-177). -/
def is_super_admin (self : User) : Bool :=
  self.role == "super_admin" || self.is_superuser

/-- The role values declared by User.ROLE_CHOICES
(authentication/models.py lines 42-50). -/
def role_choices : List String :=
  ["super_admin", "admin", "finance_admin", "attendance_officer", "treasurer",
    "part_leader", "member"]

end User

/-! ## Subscription assignment (models.py and subscription_service.py) -/

/-- The executive_roles list written out in assign_subscriptions_to_new_user
(models.py line 115), assign_subscriptions_to_user
(subscription_service.py line 24) and Subscription._get_eligible_users
(models.py line 81). Note that, unlike User.is_executive, it omits
part_leader. -/
def executive_roles : List String :=
  ["super_admin", "admin", "finance_admin", "attendance_officer", "treasurer"]

/-- Subscription._get_eligible_users (models.py lines 74-88) as a membership
predicate: the base queryset filters the users of the subscription
organization with is_active=True, then restricts by assignees_category. -/
def Subscription.get_eligible_users_mem (self : Subscription) (u : User) : Bool :=
  u.organization == some self.organization && u.is_active &&
    (if self.assignees_category == "EXECUTIVES" then
      executive_roles.contains u.role
    else if self.assignees_category == "MEMBERS" then
      u.role == "member"
    else
      true)

/-- The eligibility decision of the post_save signal
assign_subscriptions_to_new_user (models.py lines 101-139) for a
(subscription, user) pair: the signal requires a truthy
instance.organization, iterates filter(organization=instance.organization,
is_active=True), and skips by assignees_category using the executive_roles
list. -/
def assign_subscriptions_to_new_user_eligible (s : Subscription) (u : User) : Bool :=
  match u.organization with
  | none => false
  | some org =>
    s.organization == org && s.is_active &&
      (let is_exec := executive_roles.contains u.role
      if s.assignees_category == "EXECUTIVES" && !is_exec then false
      else if s.assignees_category == "MEMBERS" && is_exec then false
      else true)

/-- The eligibility decision of assign_subscriptions_to_user
(subscription_service.py lines 6-50) for a (subscription, user) pair: the
service returns early on a falsy user.organization, iterates
filter(organization=user.organization, is_active=True), and skips by
assignees_category using the executive_roles list. -/
def assign_subscriptions_to_user_eligible (s : Subscription) (u : User) : Bool :=
  match u.organization with
  | none => false
  | some org =>
    s.organization == org && s.is_active &&
      (let is_exec := executive_roles.contains u.role
      if s.assignees_category == "EXECUTIVES" && !is_exec then false
      else if s.assignees_category == "MEMBERS" && is_exec then false
      else true)

/-! ## UserSubscription lifecycle (for is_currently_active) -/

namespace UserSubscription

/-- UserSubscription.is_currently_active (models.py lines 214-220). -/
def is_currently_active (self : UserSubscription) (today : Int) : Bool :=
  self.status == "active" && decide (self.subscription.start_date ≤ today)
    && decide (today ≤ self.subscription.end_date)

/-- A UserSubscription created by one of the assignment sites
(Subscription.assign_to_users, assign_subscriptions_to_new_user,
assign_subscriptions_to_user, and the assign_missing_subscriptions
management command), all of which pass status=not_paid and leave the other
fields at their model defaults. -/
def assigned (user : Nat) (s : Subscription) : UserSubscription :=
  { user := user
    subscription := s
    status := "not_paid"
    amount_paid := 0
    payment_date := none
    payment_reference := "" }

/-- A UserSubscription created without an explicit status, taking the field
default "pending" (models.py line 168). No code site in the repository
does this, but it is the remaining creation shape the model allows. -/
def created_default (user : Nat) (s : Subscription) : UserSubscription :=
  { user := user
    subscription := s
    status := "pending"
    amount_paid := 0
    payment_date := none
    payment_reference := "" }

end UserSubscription

/-- The UserSubscription rows reachable through the repository code: created
by an assignment site or by model default, then updated only by
process_payment (the only code that writes UserSubscription.status after
creation; the serializer exposes status but its choices do not include
"active", and no view performs such a write). -/
inductive ReachableUserSubscription : UserSubscription → Prop
  | assigned (user : Nat) (s : Subscription) :
      ReachableUserSubscription (UserSubscription.assigned user s)
  | created_default (user : Nat) (s : Subscription) :
      ReachableUserSubscription (UserSubscription.created_default user s)
  | processed (s : UserSubscription) (h : ReachableUserSubscription s)
      (amount_paid : Rat) (payment_reference : String) (now : Int) :
      ReachableUserSubscription (s.process_payment amount_paid payment_reference now)

/-! ## Payment viewset scoping (src/subscriptions/views/payment_views.py) -/

namespace PaymentViewSet

/-- PaymentViewSet.get_queryset (payment_views.py lines 51-61) as a
membership predicate over transaction rows: the queryset used by the
status, list and retrieve actions. is_authenticated models
request.user.is_authenticated (false for AnonymousUser). -/
def get_queryset_mem (request_user : User) (is_authenticated : Bool)
    (t : PaymentTransaction) : Bool :=
  if is_authenticated then
    if request_user.is_executive then
      request_user.organization == some t.organization
    else
      t.user == request_user.id
  else
    false

/-- Which transaction rows the verify action (payment_views.py lines
374-398) reaches: get_permissions applies IsAuthenticated, the body gates
on is_finance_admin or is_super_admin, and then fetches
PaymentTransaction.objects.get(pk=pk) with no organization or user filter,
so the reach does not depend on the row at all. -/
def verify_reaches (request_user : User) (is_authenticated : Bool)
    (_t : PaymentTransaction) : Bool :=
  is_authenticated && (request_user.is_finance_admin || request_user.is_super_admin)

end PaymentViewSet

/-! ## OTP service (src/authentication/models.py, src/authentication/services.py) -/

/-- OTP row. id models the primary key. -/
structure OTP where
  id : Nat
  target : String
  code : String
  purpose : String
  is_used : Bool
  created_at : Int
  expires_at : Int
deriving DecidableEq

/-- OTP.is_valid (authentication/models.py lines 250-253): not used and
expires_at still in the future. -/
def OTP.is_valid (self : OTP) (now : Int) : Bool :=
  !self.is_used && decide (now < self.expires_at)

namespace OTPService

/-- The row predicate filter(target=..., purpose=..., is_used=False): the
rows generate_otp invalidates, and the rows the single-use invariant
bounds. -/
def unused_pred (target purpose : String) (o : OTP) : Bool :=
  o.target == target && o.purpose == purpose && !o.is_used

/-- The queryset update in generate_otp (services.py lines 22-26):
filter(target=target, purpose=purpose, is_used=False).update(is_used=True). -/
def invalidate (target purpose : String) (db : List OTP) : List OTP :=
  db.map fun o =>
    if unused_pred target purpose o then { o with is_used := true } else o

/-- OTPService.generate_otp (services.py lines 10-51): invalidate previous
unused OTPs for the target/purpose, then create a fresh row expiring 10
minutes out. The random 6-digit code and the fresh primary key are
parameters; the email/SMS sends do not touch the OTP table. -/
def generate_otp (db : List OTP) (id : Nat) (target purpose code : String)
    (now : Int) : List OTP :=
  invalidate target purpose db ++
    [{ id := id
       target := target
       code := code
       purpose := purpose
       is_used := false
       created_at := now
       expires_at := now + minutes 10 }]

/-- The row predicate of the verify_otp queryset. -/
def verify_pred (target code purpose : String) (o : OTP) : Bool :=
  o.target == target && o.purpose == purpose && o.code == code && !o.is_used

/-- The row filter in verify_otp (services.py lines 59-64):
filter(target=target, purpose=purpose, code=code, is_used=False). -/
def verify_filter (target code purpose : String) (db : List OTP) : List OTP :=
  db.filter (verify_pred target code purpose)

/-- .latest(created_at): the row with the greatest created_at among the
filtered rows (none when the filter is empty, modeling DoesNotExist). -/
def latest_by_created (l : List OTP) : Option OTP :=
  l.foldl
    (fun acc o =>
      match acc with
      | none => some o
      | some a => if a.created_at < o.created_at then some o else some a)
    none

/-- Persist is_used=True on the row with the given primary key. -/
def mark_used (db : List OTP) (id : Nat) : List OTP :=
  db.map fun o => if o.id == id then { o with is_used := true } else o

/-- OTPService.verify_otp (services.py lines 53-73): fetch the latest
unused matching row; if it is valid, mark it used and return it, else
return None. Returns (result, updated table). -/
def verify_otp (db : List OTP) (target code purpose : String) (now : Int) :
    Option OTP × List OTP :=
  match latest_by_created (verify_filter target code purpose db) with
  | none => (none, db)
  | some otp =>
    if otp.is_valid now then
      (some { otp with is_used := true }, mark_used db otp.id)
    else
      (none, db)

end OTPService

/-- OTP tables reachable through the repository code: the table starts
empty and is only written by OTPService.generate_otp and
OTPService.verify_otp (no other code in the repository writes OTP rows). -/
inductive ReachableOTPTable : List OTP → Prop
  | empty : ReachableOTPTable []
  | generated (db : List OTP) (h : ReachableOTPTable db) (id : Nat)
      (target purpose code : String) (now : Int) :
      ReachableOTPTable (OTPService.generate_otp db id target purpose code now)
  | verified (db : List OTP) (h : ReachableOTPTable db)
      (target code purpose : String) (now : Int) :
      ReachableOTPTable (OTPService.verify_otp db target code purpose now).2

/-! ## Theorems -/

/-- The pending-transaction test inside can_make_payment. -/
def recent_pending (txns : List PaymentTransaction) (now : Int) : Bool :=
  txns.any fun t =>
    (t.status == "initiated" || t.status == "pending")
      && decide (now - minutes 1 ≤ t.created_at)

theorem can_make_payment_spec (s : UserSubscription)
    (txns : List PaymentTransaction) (now : Int)
    (h1 : s.status ≠ "fully_paid") (h2 : s.status ≠ "refunded") :
    s.can_make_payment txns now =
      if recent_pending txns now then
        (false, "A payment is already in progress. Please wait 5 minutes before trying again.")
      else
        (true, "Can make payment") := by
  have h1b : (s.status == "fully_paid") = false := by simp [h1]
  have h2b : (s.status == "refunded") = false := by simp [h2]
  unfold UserSubscription.can_make_payment
  rw [h1b, h2b]
  simp only [Bool.false_eq_true, if_false]
  rfl

theorem recent_pending_iff (txns : List PaymentTransaction) (now : Int) :
    recent_pending txns now = true ↔
      ∃ t ∈ txns, (t.status = "initiated" ∨ t.status = "pending")
        ∧ now - minutes 1 ≤ t.created_at := by
  simp [recent_pending, List.any_eq_true]

/-- C9: for a user subscription that is neither fully paid nor refunded,
can_make_payment refuses with the message asking the user to wait 5 minutes
exactly when an initiated or pending transaction created within the last
one minute exists, and answers (true, Can make payment) otherwise: the
enforced window is minutes 1, not the five minutes the message states. -/
theorem C9_can_make_payment_window (s : UserSubscription)
    (txns : List PaymentTransaction) (now : Int)
    (h1 : s.status ≠ "fully_paid") (h2 : s.status ≠ "refunded") :
    (s.can_make_payment txns now =
        (false, "A payment is already in progress. Please wait 5 minutes before trying again.")
      ↔ ∃ t ∈ txns, (t.status = "initiated" ∨ t.status = "pending")
          ∧ now - minutes 1 ≤ t.created_at)
    ∧ ((¬ ∃ t ∈ txns, (t.status = "initiated" ∨ t.status = "pending")
          ∧ now - minutes 1 ≤ t.created_at) →
        s.can_make_payment txns now = (true, "Can make payment")) := by
  rw [can_make_payment_spec s txns now h1 h2]
  by_cases hb : recent_pending txns now = true
  · rw [if_pos hb]
    constructor
    · exact iff_of_true rfl ((recent_pending_iff txns now).mp hb)
    · intro hnex
      exact absurd ((recent_pending_iff txns now).mp hb) hnex
  · rw [if_neg hb]
    constructor
    · exact iff_of_false (by simp [Prod.ext_iff]) fun hex =>
        hb ((recent_pending_iff txns now).mpr hex)
    · intro _
      rfl

/-- C9 witness: a subscription with status not_paid and one initiated
transaction created at the current instant is refused with the
five-minute wait message. -/
theorem C9_can_make_payment_window_witness :
    ({ user := 1
       subscription :=
        { organization := 1, name := "Dues", amount := 100, start_date := 0,
          end_date := 365, assignees_category := "BOTH", is_active := true }
       status := "not_paid"
       amount_paid := 0
       payment_date := none
       payment_reference := "" } : UserSubscription).can_make_payment
      [{ user := 1, organization := 1, checkout_id := "", checkout_url := "",
         client_reference := "r1", hubtel_transaction_id := "",
         network_transaction_id := "", sales_invoice_id := "", amount := 50,
         status := "initiated", description := "", payment_channel := "",
         payment_type := "", customer_mobile_number := "", charges := 0,
         amount_after_charges := 0, created_at := 100, confirmed_at := none,
         expires_at := none, callback_received_at := none,
         callback_data := none, error_message := "" }] 100 =
      (false, "A payment is already in progress. Please wait 5 minutes before trying again.") :=
  (C9_can_make_payment_window _ _ 100 (by decide) (by decide)).1.mpr
    ⟨_, List.mem_singleton.mpr rfl, Or.inl rfl, by decide⟩

/-- C7: process_payment adds exactly the paid amount (exact arithmetic on
Rat, modeling Decimal); for a positive payment on a subscription whose
cumulative paid amount is non-negative, the resulting status is fully_paid
exactly when the new total reaches the subscription amount and
partially_paid exactly when it stays below it; and get_outstanding_amount
equals max 0 (subscription amount minus paid), hence is never negative.
The two hypotheses reflect every payment path in the code: amount_paid
starts at 0 and initiate_payment rejects non-positive amounts. -/
theorem C7_process_payment_billing (s : UserSubscription) (a : Rat)
    (ref : String) (now : Int) (hpaid : 0 ≤ s.amount_paid) (ha : 0 < a) :
    (s.process_payment a ref now).amount_paid = s.amount_paid + a
    ∧ ((s.process_payment a ref now).status = "fully_paid"
        ↔ s.subscription.amount ≤ s.amount_paid + a)
    ∧ ((s.process_payment a ref now).status = "partially_paid"
        ↔ s.amount_paid + a < s.subscription.amount)
    ∧ (∀ s2 : UserSubscription,
        s2.get_outstanding_amount = max 0 (s2.subscription.amount - s2.amount_paid)
        ∧ 0 ≤ s2.get_outstanding_amount) := by
  have hpos : (0 : Rat) < s.amount_paid + a := by linarith
  have houts : ∀ s2 : UserSubscription,
      s2.get_outstanding_amount = max 0 (s2.subscription.amount - s2.amount_paid)
      ∧ 0 ≤ s2.get_outstanding_amount :=
    fun _ => ⟨rfl, le_max_left 0 _⟩
  simp only [UserSubscription.process_payment]
  rcases le_or_lt s.subscription.amount (s.amount_paid + a) with hle | hlt
  · rw [if_pos hle]
    exact ⟨by trivial, iff_of_true rfl hle,
      iff_of_false (by decide) (not_lt.mpr hle), houts⟩
  · rw [if_neg (not_le.mpr hlt), if_pos hpos]
    exact ⟨by trivial, iff_of_false (by decide) (not_le.mpr hlt),
      iff_of_true rfl hlt, houts⟩

/-- C7 witness: paying 60 on a 100-unit subscription with 50 already paid
reaches fully_paid with 110 recorded. -/
theorem C7_process_payment_billing_witness :
    (({ user := 1
        subscription :=
          { organization := 1, name := "Dues", amount := 100, start_date := 0,
            end_date := 365, assignees_category := "BOTH", is_active := true }
        status := "partially_paid"
        amount_paid := 50
        payment_date := none
        payment_reference := "" } : UserSubscription).process_payment 60 "r2" 7).amount_paid
      = 110 := by
  have h := C7_process_payment_billing
    { user := 1
      subscription :=
        { organization := 1, name := "Dues", amount := 100, start_date := 0,
          end_date := 365, assignees_category := "BOTH", is_active := true }
      status := "partially_paid"
      amount_paid := 50
      payment_date := none
      payment_reference := "" } 60 "r2" 7 (by norm_num) (by norm_num)
  rw [h.1]
  norm_num

/-- C10: is_currently_active is identically false on every user
subscription reachable through the code, because no code path ever assigns
the status active: the assignment sites create rows with status not_paid,
the model default is pending, and process_payment only writes fully_paid
or partially_paid (or keeps the previous status). -/
theorem C10_is_currently_active_unreachable (s : UserSubscription)
    (h : ReachableUserSubscription s) (today : Int) :
    s.is_currently_active today = false := by
  have hstat : s.status ≠ "active" := by
    induction h with
    | assigned user sub => simp [UserSubscription.assigned]
    | created_default user sub => simp [UserSubscription.created_default]
    | processed s hs amount_paid payment_reference now ih =>
      simp only [UserSubscription.process_payment]
      split
      · decide
      · split
        · decide
        · exact ih
  unfold UserSubscription.is_currently_active
  rw [beq_eq_false_iff_ne.mpr hstat]
  simp

/-- C10 witness: a freshly assigned subscription inside its date range is
still not currently active. -/
theorem C10_is_currently_active_unreachable_witness :
    (UserSubscription.assigned 1
      { organization := 1, name := "Dues", amount := 100, start_date := 0,
        end_date := 365, assignees_category := "BOTH",
        is_active := true }).is_currently_active 10 = false :=
  C10_is_currently_active_unreachable _
    (ReachableUserSubscription.assigned 1 _) 10

/-! ### Concrete fixtures used by witnesses and counterexamples -/

/-- A transaction row fixture with the given user, organization, status,
creation time and stored callback payload. -/
def mk_txn (user organization : Nat) (status : String) (created_at : Int)
    (callback_data : Option Json) : PaymentTransaction :=
  { user := user, organization := organization, checkout_id := "",
    checkout_url := "", client_reference := "ref1",
    hubtel_transaction_id := "", network_transaction_id := "",
    sales_invoice_id := "", amount := 50, status := status, description := "",
    payment_channel := "", payment_type := "", customer_mobile_number := "",
    charges := 0, amount_after_charges := 0, created_at := created_at,
    confirmed_at := none, expires_at := none, callback_received_at := none,
    callback_data := callback_data, error_message := "" }

/-- A subscription fixture for the given organization and category. -/
def mk_sub (organization : Nat) (assignees_category : String) : Subscription :=
  { organization := organization, name := "Dues", amount := 100,
    start_date := 0, end_date := 365,
    assignees_category := assignees_category, is_active := true }

/-- A user-subscription fixture with the given status and paid amount. -/
def mk_usersub (status : String) (amount_paid : Rat) : UserSubscription :=
  { user := 1, subscription := mk_sub 1 "BOTH", status := status,
    amount_paid := amount_paid, payment_date := none,
    payment_reference := "" }

/-- A user fixture with the given id, organization and role. -/
def mk_user (id : Nat) (organization : Option Nat) (role : String) : User :=
  { id := id, organization := organization, is_active := true,
    is_superuser := false, role := role }

/-! ### C6 -/

theorem can_make_payment_fst (s : UserSubscription)
    (txns : List PaymentTransaction) (now : Int) :
    (s.can_make_payment txns now).1 = false ↔
      s.status = "fully_paid" ∨ s.status = "refunded"
        ∨ ∃ t ∈ txns, (t.status = "initiated" ∨ t.status = "pending")
            ∧ now - minutes 1 ≤ t.created_at := by
  by_cases h1 : s.status = "fully_paid"
  · unfold UserSubscription.can_make_payment
    simp [h1]
  · by_cases h2 : s.status = "refunded"
    · unfold UserSubscription.can_make_payment
      simp [h1, h2]
    · rw [can_make_payment_spec s txns now h1 h2]
      by_cases hb : recent_pending txns now = true
      · rw [if_pos hb]
        exact iff_of_true rfl
          (Or.inr (Or.inr ((recent_pending_iff txns now).mp hb)))
      · rw [if_neg hb]
        constructor
        · intro h; exact absurd h (by decide)
        · rintro (h | h | h)
          · exact absurd h h1
          · exact absurd h h2
          · exact absurd ((recent_pending_iff txns now).mpr h) hb

/-- C6: initiate_payment reports ValueError (and therefore creates no
PaymentTransaction row: every raise in the source precedes
PaymentTransaction.objects.create) exactly when the subscription cannot
accept a payment (fully paid, refunded or an initiated/pending transaction
created within the enforced wait window), the effective amount is not
strictly positive, or it exceeds the outstanding amount; when validation
passes it creates exactly the returned transaction, whose status is
initiated and whose expiry lies expiry_minutes in the future. -/
theorem C6_initiate_payment_validates (s : UserSubscription)
    (txns : List PaymentTransaction) (amount? : Option Rat) (ref : String)
    (expiry now : Int) :
    ((∃ e, HubtelPaymentService.initiate_payment s txns amount? ref expiry now
        = .error e) ↔
      ((s.status = "fully_paid" ∨ s.status = "refunded"
        ∨ ∃ t ∈ txns, (t.status = "initiated" ∨ t.status = "pending")
            ∧ now - minutes 1 ≤ t.created_at)
      ∨ amount?.getD s.get_outstanding_amount ≤ 0
      ∨ s.get_outstanding_amount < amount?.getD s.get_outstanding_amount))
    ∧ (∀ t, HubtelPaymentService.initiate_payment s txns amount? ref expiry now
        = .ok t →
        t.status = "initiated" ∧ t.expires_at = some (now + minutes expiry)) := by
  have hfst := can_make_payment_fst s txns now
  unfold HubtelPaymentService.initiate_payment
  rcases hcp : s.can_make_payment txns now with ⟨cp, msg⟩
  rw [hcp] at hfst
  simp only at hfst
  cases cp with
  | false =>
    simp only [Bool.not_false, if_pos rfl]
    constructor
    · exact iff_of_true ⟨msg, rfl⟩ (Or.inl (hfst.mp rfl))
    · intro t ht
      exact absurd ht (by simp)
  | true =>
    have hno : ¬(s.status = "fully_paid" ∨ s.status = "refunded"
        ∨ ∃ t ∈ txns, (t.status = "initiated" ∨ t.status = "pending")
            ∧ now - minutes 1 ≤ t.created_at) :=
      fun hh => Bool.noConfusion (hfst.mpr hh)
    simp only [Bool.not_true, Bool.false_eq_true, if_false]
    by_cases h0 : amount?.getD s.get_outstanding_amount ≤ 0
    · rw [if_pos h0]
      constructor
      · exact iff_of_true ⟨_, rfl⟩ (Or.inr (Or.inl h0))
      · intro t ht
        exact absurd ht (by simp)
    · rw [if_neg h0]
      by_cases hover : s.get_outstanding_amount
          < amount?.getD s.get_outstanding_amount
      · rw [if_pos hover]
        constructor
        · exact iff_of_true ⟨_, rfl⟩ (Or.inr (Or.inr hover))
        · intro t ht
          exact absurd ht (by simp)
      · rw [if_neg hover]
        constructor
        · constructor
          · rintro ⟨e, he⟩
            exact absurd he (by simp)
          · rintro (hh | hh | hh)
            · exact absurd hh hno
            · exact absurd hh h0
            · exact absurd hh hover
        · rintro t ht
          obtain rfl : _ = t := Except.ok.inj ht
          exact ⟨rfl, rfl⟩

/-- The transaction row initiate_payment creates on the C6 witness inputs. -/
def c6_txn : PaymentTransaction :=
  { user := 1, organization := 1, checkout_id := "", checkout_url := "",
    client_reference := "r", hubtel_transaction_id := "",
    network_transaction_id := "", sales_invoice_id := "", amount := 50,
    status := "initiated", description := "Dues - Payment",
    payment_channel := "", payment_type := "", customer_mobile_number := "",
    charges := 0, amount_after_charges := 0, created_at := 0,
    confirmed_at := none, expires_at := some (0 + minutes 5),
    callback_received_at := none, callback_data := none, error_message := "" }

/-- C6 witness: a not-paid subscription with no recent transaction accepts
a 50-unit payment, producing an initiated transaction expiring five
minutes out. -/
theorem C6_initiate_payment_validates_witness :
    HubtelPaymentService.initiate_payment (mk_usersub "not_paid" 0) []
        (some 50) "r" 5 0 = .ok c6_txn
    ∧ c6_txn.status = "initiated"
    ∧ c6_txn.expires_at = some (0 + minutes 5) := by
  have hok : HubtelPaymentService.initiate_payment (mk_usersub "not_paid" 0) []
      (some 50) "r" 5 0 = .ok c6_txn := by
    simp only [HubtelPaymentService.initiate_payment,
      UserSubscription.can_make_payment, UserSubscription.get_outstanding_amount,
      mk_usersub, mk_sub, c6_txn, minutes, List.any_nil]
    norm_num
    rfl
  exact ⟨hok,
    (C6_initiate_payment_validates (mk_usersub "not_paid" 0) [] (some 50)
      "r" 5 0).2 c6_txn hok⟩

/-! ### C4 -/

/-- C4 counterexample: an authenticated finance admin of organization 1 (an
executive user) reaches, through the verify action, a transaction that
belongs to organization 2 and to a different user, contradicting the claim
that an executive can only ever reach transactions of the executive
organization. -/
theorem C4_verify_cross_org_counterexample :
    PaymentViewSet.verify_reaches (mk_user 1 (some 1) "finance_admin") true
        (mk_txn 2 2 "pending" 0 none) = true
    ∧ (mk_user 1 (some 1) "finance_admin").is_executive = true
    ∧ (mk_user 1 (some 1) "finance_admin").organization
        ≠ some (mk_txn 2 2 "pending" 0 none).organization
    ∧ (mk_txn 2 2 "pending" 0 none).user ≠ (mk_user 1 (some 1) "finance_admin").id := by
  decide

/-- C4 as amended: the read operations (status, list, retrieve), which go
through get_queryset, are scoped exactly as claimed: an unauthenticated
request reaches nothing, a non-executive only the requesting user rows,
an executive only rows of the requesting user organization; the verify
action, however, is gated only by the finance-admin / super-admin role
test and reaches every transaction row regardless of its user and
organization. -/
theorem C4_payment_scoping_amended (u : User) (auth : Bool)
    (t : PaymentTransaction) :
    (auth = false → PaymentViewSet.get_queryset_mem u auth t = false)
    ∧ (auth = true → u.is_executive = false →
        (PaymentViewSet.get_queryset_mem u auth t = true ↔ t.user = u.id))
    ∧ (auth = true → u.is_executive = true →
        (PaymentViewSet.get_queryset_mem u auth t = true
          ↔ u.organization = some t.organization))
    ∧ PaymentViewSet.verify_reaches u auth t
        = (auth && (u.is_finance_admin || u.is_super_admin)) := by
  refine ⟨?_, ?_, ?_, rfl⟩
  · intro h
    simp [PaymentViewSet.get_queryset_mem, h]
  · intro ha he
    simp [PaymentViewSet.get_queryset_mem, ha, he]
  · intro ha he
    simp [PaymentViewSet.get_queryset_mem, ha, he]

/-- C4 amended witness: a plain member reaches a transaction of their own
through the read queryset. -/
theorem C4_payment_scoping_amended_witness :
    PaymentViewSet.get_queryset_mem (mk_user 1 (some 1) "member") true
      (mk_txn 1 1 "pending" 0 none) = true :=
  ((C4_payment_scoping_amended (mk_user 1 (some 1) "member") true
      (mk_txn 1 1 "pending" 0 none)).2.1 rfl (by decide)).mpr rfl

/-! ### C5 -/

/-- C5 counterexample: for an active MEMBERS-category subscription and an
active part_leader user of the same organization, the new-user signal and
the service function classify the pair as eligible while
Subscription._get_eligible_users does not, so the three implementations
are not equivalent. -/
theorem C5_part_leader_counterexample :
    assign_subscriptions_to_new_user_eligible (mk_sub 1 "MEMBERS")
        (mk_user 3 (some 1) "part_leader") = true
    ∧ assign_subscriptions_to_user_eligible (mk_sub 1 "MEMBERS")
        (mk_user 3 (some 1) "part_leader") = true
    ∧ (mk_sub 1 "MEMBERS").get_eligible_users_mem
        (mk_user 3 (some 1) "part_leader") = false
    ∧ (mk_user 3 (some 1) "part_leader").is_active = true
    ∧ (mk_sub 1 "MEMBERS").is_active = true := by
  decide

theorem contains_executive_of_choices (r : String) (h : r ∈ User.role_choices)
    (hne : r ≠ "part_leader") :
    executive_roles.contains r = !(r == "member") := by
  simp only [User.role_choices, List.mem_cons, List.not_mem_nil, or_false] at h
  rcases h with h | h | h | h | h | h | h
  · rw [h]; decide
  · rw [h]; decide
  · rw [h]; decide
  · rw [h]; decide
  · rw [h]; decide
  · exact absurd h hne
  · rw [h]; decide

/-- C5 as amended: the new-user signal and the service function are
equivalent on every (subscription, user) pair; and both agree with
Subscription._get_eligible_users on every pair where the user is active,
the subscription is active, and the user role is one of the declared
choices other than part_leader. They diverge exactly on part_leader users
under MEMBERS-category subscriptions (the counterexample), and
_get_eligible_users additionally filters inactive users. -/
theorem C5_assignment_equivalence_amended (s : Subscription) (u : User) :
    assign_subscriptions_to_new_user_eligible s u
      = assign_subscriptions_to_user_eligible s u
    ∧ (u.is_active = true → s.is_active = true → u.role ∈ User.role_choices →
        u.role ≠ "part_leader" →
        s.get_eligible_users_mem u = assign_subscriptions_to_new_user_eligible s u) := by
  refine ⟨rfl, ?_⟩
  intro hu hs hrole hne
  have hexec := contains_executive_of_choices u.role hrole hne
  unfold Subscription.get_eligible_users_mem assign_subscriptions_to_new_user_eligible
  cases horg : u.organization with
  | none => simp
  | some org =>
    dsimp only
    have horgeq : (some org == some s.organization) = (s.organization == org) := by
      rcases eq_or_ne org s.organization with h | h
      · simp [h]
      · simp [h, Ne.symm h]
    rw [hu, hs, horgeq]
    simp only [Bool.and_true]
    congr 1
    rcases hm : u.role == "member" with _ | _ <;> rw [hm] at hexec <;>
      simp only [Bool.not_false, Bool.not_true] at hexec <;>
      by_cases h1 : s.assignees_category = "EXECUTIVES" <;>
      by_cases h2 : s.assignees_category = "MEMBERS" <;>
      simp [h1, h2, hexec] <;>
      simpa using hexec

/-- C5 amended witness: on a BOTH-category subscription and an active
member user, _get_eligible_users agrees with the signal eligibility. -/
theorem C5_assignment_equivalence_amended_witness :
    (mk_sub 1 "BOTH").get_eligible_users_mem (mk_user 4 (some 1) "member")
      = assign_subscriptions_to_new_user_eligible (mk_sub 1 "BOTH")
          (mk_user 4 (some 1) "member") :=
  (C5_assignment_equivalence_amended (mk_sub 1 "BOTH")
      (mk_user 4 (some 1) "member")).2 rfl rfl (by decide) (by decide)

/-! ### Shared facts about the callback handlers (for C1, C2, C3) -/

theorem mark_as_success_status (t : PaymentTransaction) (sub : UserSubscription)
    (cb? : Option Json) (now : Int) :
    (t.mark_as_success sub cb? now).1.status = "success" := by
  unfold PaymentTransaction.mark_as_success
  cases cb? <;> rfl

theorem mark_as_success_confirmed (t : PaymentTransaction) (sub : UserSubscription)
    (cb? : Option Json) (now : Int) :
    (t.mark_as_success sub cb? now).1.confirmed_at = some now := by
  unfold PaymentTransaction.mark_as_success
  cases cb? <;> rfl

theorem mark_as_success_credits (t : PaymentTransaction) (sub : UserSubscription)
    (cb? : Option Json) (now : Int) :
    (t.mark_as_success sub cb? now).2
      = sub.process_payment t.amount t.client_reference now := by
  unfold PaymentTransaction.mark_as_success
  cases cb? <;> rfl

theorem mark_as_failed_status (t : PaymentTransaction) (e : String)
    (cb? : Option Json) (now : Int) :
    (t.mark_as_failed e cb? now).status = "failed" := rfl

theorem mark_as_failed_error (t : PaymentTransaction) (e : String)
    (cb? : Option Json) (now : Int) :
    (t.mark_as_failed e cb? now).error_message = e := rfl

theorem handle_callback_of_success (t : PaymentTransaction)
    (sub : UserSubscription) (cb : Json) (now : Int)
    (hdup : HubtelPaymentService.is_duplicate_callback t cb = false)
    (hsucc : HubtelPaymentService.callback_success cb = true) :
    HubtelPaymentService.handle_callback t sub cb now
      = (true, "Payment processed successfully",
          (t.mark_as_success sub (some cb) now).1,
          (t.mark_as_success sub (some cb) now).2) := by
  unfold HubtelPaymentService.handle_callback
  rw [hdup]
  simp only [Bool.false_eq_true, if_false]
  rw [if_pos hsucc]

theorem handle_callback_of_failure (t : PaymentTransaction)
    (sub : UserSubscription) (cb : Json) (now : Int)
    (hdup : HubtelPaymentService.is_duplicate_callback t cb = false)
    (hsucc : HubtelPaymentService.callback_success cb = false) :
    HubtelPaymentService.handle_callback t sub cb now
      = (false, HubtelPaymentService.callback_error_message cb,
          t.mark_as_failed (HubtelPaymentService.callback_error_message cb)
            (some cb) now,
          sub) := by
  unfold HubtelPaymentService.handle_callback
  rw [hdup, hsucc]
  simp only [Bool.false_eq_true, if_false]

theorem handle_callback_of_duplicate (t : PaymentTransaction)
    (sub : UserSubscription) (cb stored : Json) (now : Int)
    (hfinal : t.status = "success" ∨ t.status = "failed" ∨ t.status = "refunded")
    (hstored : t.callback_data = some stored)
    (htr : stored.truthy = true)
    (hhash : cb.canon = stored.canon) :
    HubtelPaymentService.handle_callback t sub cb now
      = (true, "Duplicate callback (already processed)", t, sub) := by
  have hdup : HubtelPaymentService.is_duplicate_callback t cb = true := by
    unfold HubtelPaymentService.is_duplicate_callback
    have hst : (t.status == "success" || t.status == "failed"
        || t.status == "refunded") = true := by
      rcases hfinal with h | h | h <;> simp [h]
    rw [if_pos hst, hstored]
    dsimp only
    rw [if_pos htr, hhash]
    exact beq_self_eq_true _
  unfold HubtelPaymentService.handle_callback
  rw [if_pos hdup]

/-- A payload whose Data.ClientReference is a string is a JSON object with
at least one entry. -/
theorem client_reference_obj_shape (cb : Json) (r : String)
    (h : HubtelPaymentService.callback_client_reference cb = .str r) :
    ∃ k v tl, cb = .obj (.cons k v tl) := by
  cases cb with
  | obj entries =>
    cases entries with
    | nil => exact Json.noConfusion h
    | cons k v tl => exact ⟨k, v, tl, rfl⟩
  | null => exact Json.noConfusion h
  | bool b => exact Json.noConfusion h
  | num q => exact Json.noConfusion h
  | str s => exact Json.noConfusion h
  | arr elems => exact Json.noConfusion h

/-- A value with the same canonical form as a non-empty object is itself a
non-empty object, hence truthy. -/
theorem truthy_of_canon_eq_nonempty_obj (entries : JsonObj) (b : Json)
    (h : (Json.obj entries).canon = b.canon) (hne : entries ≠ .nil) :
    b.truthy = true := by
  cases b with
  | obj bentries =>
    have h2 : Json.canonObj entries = Json.canonObj bentries := by
      have := h
      simp only [Json.canon] at this
      exact Json.obj.inj this
    have hlen : entries.length = bentries.length := by
      have h3 := congrArg JsonObj.length h2
      rwa [Json.length_canonObj, Json.length_canonObj] at h3
    cases bentries with
    | nil =>
      cases entries with
      | nil => exact absurd rfl hne
      | cons k v tl => exact absurd hlen (by simp [JsonObj.length])
    | cons k v tl => rfl
  | null => exact Json.noConfusion h
  | bool b2 => exact Json.noConfusion h
  | num q => exact Json.noConfusion h
  | str s2 => exact Json.noConfusion h
  | arr elems => exact Json.noConfusion h

/-! ### C1 -/

/-- C1: for a callback that names an existing transaction (hypothesis href
states that Data.ClientReference is the transaction client_reference) and
is not detected as a duplicate, handle_callback marks the transaction
success — recording the confirmation time and crediting the amount to the
user subscription via process_payment — exactly when ResponseCode is the
string 0000 and both Status and Data.Status are the string Success; in
every other case it marks it failed, storing the payload Data.Description
(defaulting to Payment failed when absent) as the error message. -/
theorem C1_handle_callback_outcome (t : PaymentTransaction)
    (sub : UserSubscription) (cb : Json) (now : Int)
    (href : HubtelPaymentService.callback_client_reference cb
      = .str t.client_reference)
    (hdup : HubtelPaymentService.is_duplicate_callback t cb = false) :
    (HubtelPaymentService.callback_success cb = true →
      HubtelPaymentService.handle_callback t sub cb now
        = (true, "Payment processed successfully",
            (t.mark_as_success sub (some cb) now).1,
            sub.process_payment t.amount t.client_reference now)
      ∧ (HubtelPaymentService.handle_callback t sub cb now).2.2.1.status
          = "success"
      ∧ (HubtelPaymentService.handle_callback t sub cb now).2.2.1.confirmed_at
          = some now)
    ∧ (HubtelPaymentService.callback_success cb = false →
      HubtelPaymentService.handle_callback t sub cb now
        = (false, HubtelPaymentService.callback_error_message cb,
            t.mark_as_failed (HubtelPaymentService.callback_error_message cb)
              (some cb) now,
            sub)
      ∧ (HubtelPaymentService.handle_callback t sub cb now).2.2.1.status
          = "failed"
      ∧ (HubtelPaymentService.handle_callback t sub cb now).2.2.1.error_message
          = HubtelPaymentService.callback_error_message cb)
    ∧ ((HubtelPaymentService.handle_callback t sub cb now).2.2.1.status
        = "success"
      ↔ HubtelPaymentService.callback_success cb = true) := by
  refine ⟨?_, ?_, ?_⟩
  · intro hsucc
    have heq := handle_callback_of_success t sub cb now hdup hsucc
    rw [heq, mark_as_success_credits t sub (some cb) now]
    exact ⟨rfl, mark_as_success_status t sub (some cb) now,
      mark_as_success_confirmed t sub (some cb) now⟩
  · intro hsucc
    have heq := handle_callback_of_failure t sub cb now hdup hsucc
    rw [heq]
    exact ⟨rfl, mark_as_failed_status _ _ _ _, mark_as_failed_error _ _ _ _⟩
  · cases hsucc : HubtelPaymentService.callback_success cb with
    | true =>
      rw [handle_callback_of_success t sub cb now hdup hsucc]
      exact iff_of_true (mark_as_success_status t sub (some cb) now) rfl
    | false =>
      rw [handle_callback_of_failure t sub cb now hdup hsucc]
      refine iff_of_false ?_ (by simp)
      rw [mark_as_failed_status]
      decide

/-- A successful Hubtel callback payload for client reference ref1. -/
def success_cb_fx : Json :=
  .obj (.cons "ResponseCode" (.str "0000")
    (.cons "Status" (.str "Success")
      (.cons "Data" (.obj (.cons "ClientReference" (.str "ref1")
        (.cons "Status" (.str "Success") .nil))) .nil)))

/-- The payload success_cb_fx with its object keys listed in a different
order: same JSON content, so the same key-sorted serialization. -/
def success_cb_reordered_fx : Json :=
  .obj (.cons "Status" (.str "Success")
    (.cons "Data" (.obj (.cons "Status" (.str "Success")
      (.cons "ClientReference" (.str "ref1") .nil)))
      (.cons "ResponseCode" (.str "0000") .nil)))

/-- A failed Hubtel callback payload for the same client reference. -/
def failed_cb_fx : Json :=
  .obj (.cons "ResponseCode" (.str "2001")
    (.cons "Status" (.str "Failed")
      (.cons "Data" (.obj (.cons "ClientReference" (.str "ref1")
        (.cons "Status" (.str "Failed")
          (.cons "Description" (.str "Insufficient funds") .nil)))) .nil)))

/-- C1 witness: a success payload on a fresh initiated transaction yields
transaction status success. -/
theorem C1_handle_callback_outcome_witness :
    (HubtelPaymentService.handle_callback (mk_txn 1 1 "initiated" 0 none)
      (mk_usersub "not_paid" 0) success_cb_fx 9).2.2.1.status = "success" :=
  (((C1_handle_callback_outcome (mk_txn 1 1 "initiated" 0 none)
      (mk_usersub "not_paid" 0) success_cb_fx 9 (by decide) (by decide)).1
    (by decide)).2).1

/-! ### C2 -/

/-- C2: for a transaction already in a final state whose stored
callback_data has the same JSON content as the incoming payload naming it
(equal key-sorted canonical forms, modeling the md5 comparison of the
key-sorted serializations), handle_callback answers success with the
duplicate message and returns the transaction and its user subscription
unchanged. -/
theorem C2_duplicate_callback_idempotent (t : PaymentTransaction)
    (sub : UserSubscription) (cb stored : Json) (now : Int)
    (hfinal : t.status = "success" ∨ t.status = "failed" ∨ t.status = "refunded")
    (hstored : t.callback_data = some stored)
    (href : HubtelPaymentService.callback_client_reference cb
      = .str t.client_reference)
    (hhash : cb.canon = stored.canon) :
    HubtelPaymentService.handle_callback t sub cb now
      = (true, "Duplicate callback (already processed)", t, sub) := by
  obtain ⟨k, v, tl, rfl⟩ := client_reference_obj_shape cb t.client_reference href
  have htr : stored.truthy = true :=
    truthy_of_canon_eq_nonempty_obj _ stored hhash (fun hh => JsonObj.noConfusion hh)
  exact handle_callback_of_duplicate t sub _ stored now hfinal hstored htr hhash

/-- The reordered payload has the same key-sorted canonical form as the
original, so the modeled md5 comparison sees identical serializations. -/
theorem canon_reordered_eq :
    success_cb_reordered_fx.canon = success_cb_fx.canon := by
  simp only [success_cb_reordered_fx, success_cb_fx, Json.canon, Json.canonObj,
    Json.canonList, Json.insertObj]
  decide

/-- C2 witness: redelivering the stored success payload with its keys in a
different order is detected as a duplicate and changes nothing. -/
theorem C2_duplicate_callback_idempotent_witness :
    HubtelPaymentService.handle_callback
        (mk_txn 1 1 "success" 0 (some success_cb_fx)) (mk_usersub "fully_paid" 100)
        success_cb_reordered_fx 9
      = (true, "Duplicate callback (already processed)",
          mk_txn 1 1 "success" 0 (some success_cb_fx),
          mk_usersub "fully_paid" 100) :=
  C2_duplicate_callback_idempotent (mk_txn 1 1 "success" 0 (some success_cb_fx))
    (mk_usersub "fully_paid" 100) success_cb_reordered_fx success_cb_fx 9
    (Or.inl rfl) rfl (by decide) canon_reordered_eq

/-! ### C3 -/

/-- C3 counterexample: a transaction in status success, on receiving a
different (non-duplicate) failure callback for its reference, is moved to
status failed — a successful transaction does not stay successful. -/
theorem C3_success_not_absorbing_counterexample :
    (mk_txn 1 1 "success" 0 (some success_cb_fx)).status = "success"
    ∧ (HubtelPaymentService.handle_callback
        (mk_txn 1 1 "success" 0 (some success_cb_fx))
        (mk_usersub "fully_paid" 100) failed_cb_fx 9).2.2.1.status = "failed" := by
  have hdup : HubtelPaymentService.is_duplicate_callback
      (mk_txn 1 1 "success" 0 (some success_cb_fx)) failed_cb_fx = false := by
    simp only [HubtelPaymentService.is_duplicate_callback, mk_txn,
      success_cb_fx, failed_cb_fx, Json.truthy, Json.canon, Json.canonObj,
      Json.canonList, Json.insertObj]
    decide
  refine ⟨rfl, ?_⟩
  rw [handle_callback_of_failure _ _ _ _ hdup (by decide)]
  rfl

/-- C3 as amended: for a transaction in status success, exact redelivery of
its stored callback payload leaves everything unchanged, and
check_payment_status keeps the status success exactly when the Hubtel
response is not a responseCode-0000 response whose data status is Unpaid
or Refunded (those two overwrite the status with pending or refunded); a
non-duplicate callback that fails the success test marks the transaction
failed. -/
theorem C3_success_transitions_amended (t : PaymentTransaction)
    (sub : UserSubscription) (now : Int) (hs : t.status = "success") :
    (∀ cb stored, t.callback_data = some stored → stored.truthy = true →
        cb.canon = stored.canon →
        HubtelPaymentService.handle_callback t sub cb now
          = (true, "Duplicate callback (already processed)", t, sub))
    ∧ (∀ resp, ((HubtelPaymentService.check_payment_status t sub resp now).1.status
          = "success"
        ↔ ¬(resp.getD "responseCode" .null = .str "0000"
            ∧ ((resp.getD "data" (.obj .nil)).getD "status" .null = .str "Unpaid"
              ∨ (resp.getD "data" (.obj .nil)).getD "status" .null
                  = .str "Refunded"))))
    ∧ (∀ cb, HubtelPaymentService.is_duplicate_callback t cb = false →
        HubtelPaymentService.callback_success cb = false →
        (HubtelPaymentService.handle_callback t sub cb now).2.2.1.status
          = "failed") := by
  refine ⟨?_, ?_, ?_⟩
  · intro cb stored hstored htr hhash
    exact handle_callback_of_duplicate t sub cb stored now (Or.inl hs)
      hstored htr hhash
  · intro resp
    unfold HubtelPaymentService.check_payment_status
    dsimp only
    by_cases hc : resp.getD "responseCode" .null = .str "0000"
    · rw [if_pos (by simp [hc])]
      have hnotpaid : (((resp.getD "data" (.obj .nil)).getD "status" .null
          == .str "Paid") && !(t.status == "success")) = false := by
        simp [hs]
      rw [hnotpaid]
      simp only [Bool.false_eq_true, if_false]
      by_cases hU : (resp.getD "data" (.obj .nil)).getD "status" .null
          = .str "Unpaid"
      · rw [if_pos (by simp [hU])]
        exact iff_of_false (by intro hcontr; simp at hcontr)
          fun hn => hn ⟨hc, Or.inl hU⟩
      · rw [if_neg (by simp [hU])]
        by_cases hR : (resp.getD "data" (.obj .nil)).getD "status" .null
            = .str "Refunded"
        · rw [if_pos (by simp [hR])]
          exact iff_of_false (by intro hcontr; simp at hcontr)
            fun hn => hn ⟨hc, Or.inr hR⟩
        · rw [if_neg (by simp [hR])]
          exact iff_of_true hs fun hh => hh.2.elim hU hR
    · rw [if_neg (by simp [hc])]
      exact iff_of_true hs fun hh => hc hh.1
  · intro cb hdup hsucc
    rw [handle_callback_of_failure t sub cb now hdup hsucc]
    exact mark_as_failed_status _ _ _ _

/-- C3 amended witness: on a success transaction, a status poll whose
response carries no responseCode leaves the status success. -/
theorem C3_success_transitions_amended_witness :
    (HubtelPaymentService.check_payment_status
        (mk_txn 1 1 "success" 0 (some success_cb_fx))
        (mk_usersub "fully_paid" 100) (.obj .nil) 9).1.status = "success" :=
  ((C3_success_transitions_amended (mk_txn 1 1 "success" 0 (some success_cb_fx))
      (mk_usersub "fully_paid" 100) 9 rfl).2.1 (.obj .nil)).mpr
    (by decide)

/-! ### C8 -/

theorem unused_pred_update (t0 p0 : String) (o : OTP) :
    OTPService.unused_pred t0 p0 { o with is_used := true } = false := by
  simp [OTPService.unused_pred]

theorem countP_unused_invalidate_self (target purpose : String) (db : List OTP) :
    (OTPService.invalidate target purpose db).countP
      (OTPService.unused_pred target purpose) = 0 := by
  unfold OTPService.invalidate
  rw [List.countP_map, List.countP_eq_zero]
  intro o _
  simp only [Function.comp]
  by_cases h : OTPService.unused_pred target purpose o = true
  · rw [if_pos h, unused_pred_update]
    simp
  · rw [if_neg h]
    exact h

theorem countP_unused_invalidate_other (t0 p0 target purpose : String)
    (hne : ¬(t0 = target ∧ p0 = purpose)) (db : List OTP) :
    (OTPService.invalidate target purpose db).countP (OTPService.unused_pred t0 p0)
      = db.countP (OTPService.unused_pred t0 p0) := by
  unfold OTPService.invalidate
  rw [List.countP_map]
  apply List.countP_congr
  intro o _
  simp only [Function.comp]
  by_cases h : OTPService.unused_pred target purpose o = true
  · rw [if_pos h, unused_pred_update]
    have ho : OTPService.unused_pred t0 p0 o = false := by
      have hh := h
      unfold OTPService.unused_pred at hh ⊢
      simp only [Bool.and_eq_true, beq_iff_eq] at hh
      obtain ⟨⟨h1, h2⟩, _⟩ := hh
      rcases not_and_or.mp hne with hne1 | hne1
      · have hb : (o.target == t0) = false := by
          rw [h1]
          exact beq_eq_false_iff_ne.mpr fun hc => hne1 hc.symm
        simp [hb]
      · have hb : (o.purpose == p0) = false := by
          rw [h2]
          exact beq_eq_false_iff_ne.mpr fun hc => hne1 hc.symm
        simp [hb]
    rw [ho]
  · rw [if_neg h]

theorem countP_unused_mark_used (t0 p0 : String) (id : Nat) (db : List OTP) :
    (OTPService.mark_used db id).countP (OTPService.unused_pred t0 p0)
      ≤ db.countP (OTPService.unused_pred t0 p0) := by
  unfold OTPService.mark_used
  rw [List.countP_map]
  apply List.countP_mono_left
  intro o _ h
  simp only [Function.comp] at h
  by_cases hid : (o.id == id) = true
  · rw [if_pos hid, unused_pred_update] at h
    exact absurd h (by simp)
  · rwa [if_neg hid] at h

/-- The single-use invariant: every OTP table reachable through the
repository code holds at most one unused OTP per (target, purpose). -/
theorem reachable_at_most_one_unused (db : List OTP) (h : ReachableOTPTable db)
    (t p : String) : db.countP (OTPService.unused_pred t p) ≤ 1 := by
  induction h with
  | empty => simp
  | generated db h id target purpose code now ih =>
    unfold OTPService.generate_otp
    rw [List.countP_append, List.countP_singleton]
    by_cases hcase : t = target ∧ p = purpose
    · obtain ⟨rfl, rfl⟩ := hcase
      rw [countP_unused_invalidate_self]
      split <;> simp
    · rw [countP_unused_invalidate_other t p target purpose hcase db]
      have hnew : OTPService.unused_pred t p
          { id := id, target := target, code := code, purpose := purpose,
            is_used := false, created_at := now,
            expires_at := now + minutes 10 } = false := by
        unfold OTPService.unused_pred
        dsimp only
        rcases not_and_or.mp hcase with hne | hne
        · have hb : (target == t) = false :=
            beq_eq_false_iff_ne.mpr fun hc => hne hc.symm
          simp [hb]
        · have hb : (purpose == p) = false :=
            beq_eq_false_iff_ne.mpr fun hc => hne hc.symm
          simp [hb]
      rw [hnew]
      simpa using ih
  | verified db h target code purpose now ih =>
    unfold OTPService.verify_otp
    cases hm : OTPService.latest_by_created
        (OTPService.verify_filter target code purpose db) with
    | none => exact ih
    | some otp =>
      dsimp only
      by_cases hv : otp.is_valid now = true
      · rw [if_pos hv]
        exact le_trans (countP_unused_mark_used t p otp.id db) ih
      · rw [if_neg hv]
        exact ih

theorem verify_filter_length_le (target code purpose : String) (db : List OTP) :
    (OTPService.verify_filter target code purpose db).length
      ≤ db.countP (OTPService.unused_pred target purpose) := by
  unfold OTPService.verify_filter
  rw [← List.countP_eq_length_filter]
  apply List.countP_mono_left
  intro o _ h
  unfold OTPService.verify_pred at h
  unfold OTPService.unused_pred
  simp only [Bool.and_eq_true] at h ⊢
  exact ⟨⟨h.1.1.1, h.1.1.2⟩, h.2⟩

theorem verify_pred_iff (target code purpose : String) (o : OTP) :
    OTPService.verify_pred target code purpose o = true ↔
      o.target = target ∧ o.purpose = purpose ∧ o.code = code
        ∧ o.is_used = false := by
  unfold OTPService.verify_pred
  simp [Bool.not_eq_true', and_assoc]

/-- The behaviour of verify_otp on a table with at most one unused OTP for
the (target, purpose) pair: it answers exactly when an unused, unexpired,
code-matching row exists, and a successful answer marks the row used and
empties the verify queryset for these arguments. -/
theorem verify_otp_spec (db : List OTP) (target code purpose : String) (now : Int)
    (hinv : db.countP (OTPService.unused_pred target purpose) ≤ 1) :
    ((OTPService.verify_otp db target code purpose now).1.isSome = true ↔
      ∃ o ∈ db, OTPService.verify_pred target code purpose o = true
        ∧ now < o.expires_at)
    ∧ (∀ o, (OTPService.verify_otp db target code purpose now).1 = some o →
        o.is_used = true
        ∧ OTPService.verify_filter target code purpose
            (OTPService.verify_otp db target code purpose now).2 = []) := by
  have hlen : (OTPService.verify_filter target code purpose db).length ≤ 1 :=
    le_trans (verify_filter_length_le target code purpose db) hinv
  cases hF : OTPService.verify_filter target code purpose db with
  | nil =>
    have hnone : (OTPService.verify_otp db target code purpose now).1 = none := by
      unfold OTPService.verify_otp
      rw [hF]
      rfl
    constructor
    · rw [hnone]
      simp only [Option.isSome_none, Bool.false_eq_true, false_iff]
      rintro ⟨o, ho, hp, _⟩
      have : o ∈ OTPService.verify_filter target code purpose db := by
        unfold OTPService.verify_filter
        exact List.mem_filter.mpr ⟨ho, hp⟩
      rw [hF] at this
      exact absurd this (List.not_mem_nil o)
    · intro o ho
      rw [hnone] at ho
      exact Option.noConfusion ho
  | cons x tl =>
    have htl : tl = [] := by
      rw [hF, List.length_cons] at hlen
      have h0 : tl.length = 0 := by omega
      exact List.length_eq_zero.mp h0
    subst htl
    have hxmem : x ∈ db ∧ OTPService.verify_pred target code purpose x = true := by
      have hx : x ∈ OTPService.verify_filter target code purpose db := by
        rw [hF]
        exact List.mem_cons_self x []
      unfold OTPService.verify_filter at hx
      exact List.mem_filter.mp hx
    have hxunused : x.is_used = false :=
      ((verify_pred_iff target code purpose x).mp hxmem.2).2.2.2
    have hlatest : OTPService.latest_by_created
        (OTPService.verify_filter target code purpose db) = some x := by
      rw [hF]
      rfl
    by_cases hexp : now < x.expires_at
    · have hvalid : x.is_valid now = true := by
        unfold OTP.is_valid
        simp [hxunused, hexp]
      have hres : OTPService.verify_otp db target code purpose now
          = (some { x with is_used := true }, OTPService.mark_used db x.id) := by
        unfold OTPService.verify_otp
        rw [hlatest]
        dsimp only
        rw [if_pos hvalid]
      constructor
      · rw [hres]
        simp only [Option.isSome_some, true_iff]
        exact ⟨x, hxmem.1, hxmem.2, hexp⟩
      · intro o ho
        rw [hres] at ho
        obtain rfl : ({ x with is_used := true } : OTP) = o := Option.some.inj ho
        refine ⟨rfl, ?_⟩
        rw [hres]
        unfold OTPService.verify_filter OTPService.mark_used
        rw [List.filter_eq_nil_iff]
        intro o' ho'
        rw [List.mem_map] at ho'
        obtain ⟨o2, ho2, rfl⟩ := ho'
        by_cases hid : (o2.id == x.id) = true
        · rw [if_pos hid]
          intro hcontr
          exact absurd ((verify_pred_iff target code purpose _).mp hcontr).2.2.2
            (by simp)
        · rw [if_neg hid]
          intro hcontr
          have hm2 : o2 ∈ OTPService.verify_filter target code purpose db := by
            unfold OTPService.verify_filter
            exact List.mem_filter.mpr ⟨ho2, hcontr⟩
          rw [hF] at hm2
          obtain rfl := List.mem_singleton.mp hm2
          simp at hid
    · have hvalid : x.is_valid now = false := by
        unfold OTP.is_valid
        simp [hxunused, hexp]
      have hres : OTPService.verify_otp db target code purpose now = (none, db) := by
        unfold OTPService.verify_otp
        rw [hlatest]
        dsimp only
        rw [if_neg (by simp [hvalid])]
      constructor
      · rw [hres]
        simp only [Option.isSome_none, Bool.false_eq_true, false_iff]
        rintro ⟨o, ho, hp, hexp2⟩
        have hm2 : o ∈ OTPService.verify_filter target code purpose db := by
          unfold OTPService.verify_filter
          exact List.mem_filter.mpr ⟨ho, hp⟩
        rw [hF] at hm2
        obtain rfl := List.mem_singleton.mp hm2
        exact absurd hexp2 hexp
      · intro o ho
        rw [hres] at ho
        exact Option.noConfusion ho

/-- C8: in every OTP table reachable through the code there is at most one
unused OTP per (target, purpose), because generate_otp marks every
previous unused OTP for the pair used before creating the new one; and
verify_otp answers with an OTP exactly when an unused, unexpired OTP
matching target, purpose and code exists, the answered OTP is marked used,
and a repeated verification of the same code afterwards answers None. -/
theorem C8_otp_single_use (db : List OTP) (h : ReachableOTPTable db)
    (target code purpose : String) (now now2 : Int) :
    (∀ t p, db.countP (OTPService.unused_pred t p) ≤ 1)
    ∧ ((OTPService.verify_otp db target code purpose now).1.isSome = true ↔
        ∃ o ∈ db, o.target = target ∧ o.purpose = purpose ∧ o.code = code
          ∧ o.is_used = false ∧ now < o.expires_at)
    ∧ (∀ o, (OTPService.verify_otp db target code purpose now).1 = some o →
        o.is_used = true
        ∧ (OTPService.verify_otp
            (OTPService.verify_otp db target code purpose now).2
            target code purpose now2).1 = none) := by
  have hinv : ∀ t p, db.countP (OTPService.unused_pred t p) ≤ 1 :=
    reachable_at_most_one_unused db h
  have hspec := verify_otp_spec db target code purpose now (hinv target purpose)
  refine ⟨hinv, ?_, ?_⟩
  · rw [hspec.1]
    constructor
    · rintro ⟨o, ho, hp, hexp⟩
      have hp2 := (verify_pred_iff target code purpose o).mp hp
      exact ⟨o, ho, hp2.1, hp2.2.1, hp2.2.2.1, hp2.2.2.2, hexp⟩
    · rintro ⟨o, ho, h1, h2, h3, h4, h5⟩
      exact ⟨o, ho, (verify_pred_iff target code purpose o).mpr ⟨h1, h2, h3, h4⟩, h5⟩
  · intro o ho
    obtain ⟨hused, hempty⟩ := hspec.2 o ho
    refine ⟨hused, ?_⟩
    generalize hdb2 : (OTPService.verify_otp db target code purpose now).2 = db2
    rw [hdb2] at hempty
    unfold OTPService.verify_otp
    rw [hempty]
    rfl

/-- C8 witness: generating an OTP in an empty table and verifying the same
code within its validity window answers with an OTP. -/
theorem C8_otp_single_use_witness :
    (OTPService.verify_otp
        (OTPService.generate_otp [] 0 "user@example.com" "activation" "123456" 0)
        "user@example.com" "123456" "activation" 60).1.isSome = true :=
  (C8_otp_single_use _
      (ReachableOTPTable.generated [] ReachableOTPTable.empty 0
        "user@example.com" "activation" "123456" 0)
      "user@example.com" "123456" "activation" 60 0).2.1.mpr
    ⟨{ id := 0, target := "user@example.com", code := "123456",
       purpose := "activation", is_used := false, created_at := 0,
       expires_at := 0 + minutes 10 },
      by decide, rfl, rfl, rfl, rfl, by decide⟩

end Choir
